import Mathlib

/-!
Verification of the n8n workflow service (`src/services/n8nService.ts`).

The service has three operations, each a thin wrapper around a single
network round trip (or a fuel-bounded loop of round trips):

* `executeWorkflow`          — POST a JSON payload to a webhook URL;
* `executeWorkflowWithFiles` — POST a multipart `FormData` payload;
* `pollWorkflowStatus`       — GET a status endpoint until a terminal
  status is observed or `maxAttempts` attempts are exhausted.

The embedding models JSON values, the fetch outcome (transport error,
HTTP status plus body-parse result), and the uniform response envelope
`WorkflowResponse`.  Each operation also returns the trace of network
events it performed, so that claims about call counts and waits are
statable.  JavaScript truthiness (`webhookUrl || N8N_WEBHOOK_URL`,
`result.error || generic`) is modelled explicitly.  Property access on
a parsed body follows JavaScript: on a non-null receiver it is total
field lookup (absent field or non-object receiver yields no value,
matching `undefined`), while reading `status` from a bare `null` body
throws a TypeError, which the poll loop's catch converts into a failure
envelope after the one GET of that attempt.
-/

namespace N8nService

/-- JSON values, as produced by `response.json()`. -/
inductive Json where
  | null : Json
  | bool : Bool → Json
  | num : Int → Json
  | str : String → Json
  | arr : List Json → Json
  | obj : List (String × Json) → Json
deriving Repr

/-- First binding of a field name in an object's field list. -/
def findField : List (String × Json) → String → Option Json
  | [], _ => none
  | (k, v) :: rest, n => if k = n then some v else findField rest n

/-- JavaScript property access `j.name` on a parsed, non-null JSON
value: a value for object receivers holding the field, nothing
(`undefined`) otherwise.  A null receiver instead throws a TypeError;
that path is modelled where the access happens, in `pollLoop`, which
tests `Json.isNull` before the first `status` read. -/
def Json.getField : Json → String → Option Json
  | Json.obj fs, n => findField fs n
  | _, _ => none

/-- Whether a parsed body is the bare JSON value `null` (the one
`response.json()` result whose property access throws). -/
def Json.isNull : Json → Bool
  | Json.null => true
  | _ => false

/-- JavaScript truthiness of a JSON value (`null`, `false`, `0` and the
empty string are falsy; arrays and objects are always truthy). -/
def Json.truthy : Json → Bool
  | Json.null => false
  | Json.bool b => b
  | Json.num n => n != 0
  | Json.str s => s != ""
  | Json.arr _ => true
  | Json.obj _ => true

/-- The `WorkflowResponse<T>` envelope.  The TypeScript type declares
`error?: string`, but at runtime the poller can place any JSON value
there (`error: result.error || ...`), so the model uses `Option Json`. -/
structure WorkflowResponse where
  success : Bool
  data : Option Json
  error : Option Json
deriving Repr

/-- `FormData` entries; the service passes the object through unmodified. -/
abbrev FormData := List (String × String)

/-- Body of an outgoing request: JSON-serialized payload or raw form data. -/
inductive RequestBody where
  | jsonBody : Json → RequestBody
  | formBody : FormData → RequestBody
deriving Repr

/-- An outgoing HTTP request as built by the service.  `contentType` is
the explicitly set `Content-Type` header (the form-data path sets none). -/
structure Request where
  url : String
  method : String
  contentType : Option String
  body : RequestBody
deriving Repr

/-- Result of parsing a response body with `response.json()`:
the parsed value, or the message of the rejection it was caught with. -/
inductive ParseResult where
  | parsed : Json → ParseResult
  | malformed : String → ParseResult
deriving Repr

/-- Outcome of one `fetch` call: a transport-level rejection (carrying
the caught error message), or a response with an HTTP status code and a
body-parse result. -/
inductive FetchOutcome where
  | transportError : String → FetchOutcome
  | ok : Nat → ParseResult → FetchOutcome
deriving Repr

/-- `response.ok`: status in the inclusive range 200–299. -/
def responseOk (status : Nat) : Bool :=
  decide (200 ≤ status) && decide (status ≤ 299)

def methodPost : String := "POST"

def contentTypeJson : String := "application/json"

def configErrorMsg : String :=
  "Webhook URL not configured. Please set VITE_N8N_WEBHOOK_URL in your .env file."

def httpErrorPre : String := "HTTP error! status: "

/-- Message of the `Error` thrown on a non-2xx response. -/
def httpErrorMsg (status : Nat) : String := httpErrorPre ++ toString status

def genericFailedMsg : String := "Workflow execution failed"

def timeoutMsg : String := "Workflow execution timed out"

/-- Message of the TypeError thrown by reading a property of a null
body, as caught and surfaced by the poll loop (V8 wording; the exact
text is engine-specific, and no claim depends on it beyond its being
the caught error's message rather than the timeout message). -/
def nullReadMsg (field : String) : String :=
  "Cannot read properties of null (reading \x27" ++ field ++ "\x27)"

def statusField : String := "status"

def errorField : String := "error"

def statusCompleted : String := "completed"

def statusSuccess : String := "success"

def statusFailed : String := "failed"

def statusError : String := "error"

/-- JavaScript `||` fallback on an optional string: an empty string is
falsy and falls through. -/
def truthyStr : Option String → Option String
  | some u => if u = "" then none else some u
  | none => none

/-- `const url = webhookUrl || N8N_WEBHOOK_URL` followed by `if (!url)`:
the resolved endpoint is the first truthy of the override and the
configured default, if any. -/
def resolveUrl (webhookUrl defaultUrl : Option String) : Option String :=
  match truthyStr webhookUrl with
  | some u => some u
  | none => truthyStr defaultUrl

/-- The request `executeWorkflow` issues: POST, JSON content type,
JSON-serialized payload. -/
def jsonRequest (url : String) (data : Json) : Request :=
  ⟨url, methodPost, some contentTypeJson, RequestBody.jsonBody data⟩

/-- The request `executeWorkflowWithFiles` issues: POST, no explicit
content type, the form data as body, unmodified. -/
def formRequest (url : String) (fd : FormData) : Request :=
  ⟨url, methodPost, none, RequestBody.formBody fd⟩

/-- `executeWorkflow(data, webhookUrl?)`.  `defaultUrl` models the
`VITE_N8N_WEBHOOK_URL` environment value; `net` models the network.
Returns the envelope together with the list of requests issued. -/
def executeWorkflow (defaultUrl : Option String) (net : Request → FetchOutcome)
    (data : Json) (webhookUrl : Option String) :
    WorkflowResponse × List Request :=
  match resolveUrl webhookUrl defaultUrl with
  | none => (⟨false, none, some (Json.str configErrorMsg)⟩, [])
  | some url =>
    match net (jsonRequest url data) with
    | FetchOutcome.transportError msg =>
      (⟨false, none, some (Json.str msg)⟩, [jsonRequest url data])
    | FetchOutcome.ok status body =>
      if responseOk status then
        match body with
        | ParseResult.parsed result =>
          (⟨true, some result, none⟩, [jsonRequest url data])
        | ParseResult.malformed msg =>
          (⟨false, none, some (Json.str msg)⟩, [jsonRequest url data])
      else
        (⟨false, none, some (Json.str (httpErrorMsg status))⟩, [jsonRequest url data])

/-- `executeWorkflowWithFiles(formData, webhookUrl?)`: identical control
flow, but the body is the raw form data and no content type is set. -/
def executeWorkflowWithFiles (defaultUrl : Option String)
    (net : Request → FetchOutcome) (fd : FormData) (webhookUrl : Option String) :
    WorkflowResponse × List Request :=
  match resolveUrl webhookUrl defaultUrl with
  | none => (⟨false, none, some (Json.str configErrorMsg)⟩, [])
  | some url =>
    match net (formRequest url fd) with
    | FetchOutcome.transportError msg =>
      (⟨false, none, some (Json.str msg)⟩, [formRequest url fd])
    | FetchOutcome.ok status body =>
      if responseOk status then
        match body with
        | ParseResult.parsed result =>
          (⟨true, some result, none⟩, [formRequest url fd])
        | ParseResult.malformed msg =>
          (⟨false, none, some (Json.str msg)⟩, [formRequest url fd])
      else
        (⟨false, none, some (Json.str (httpErrorMsg status))⟩, [formRequest url fd])

/-- `result.status === s` for a string literal `s`: true exactly when
the `status` field is present and is that string. -/
def statusIs (result : Json) (s : String) : Bool :=
  match Json.getField result statusField with
  | some (Json.str t) => t = s
  | _ => false

/-- `result.status === 'completed' || result.status === 'success'`. -/
def isTerminalSuccess (result : Json) : Bool :=
  statusIs result statusCompleted || statusIs result statusSuccess

/-- `result.status === 'failed' || result.status === 'error'`. -/
def isTerminalFailure (result : Json) : Bool :=
  statusIs result statusFailed || statusIs result statusError

/-- `result.error || 'Workflow execution failed'`: the body's `error`
field when present and truthy, the generic message otherwise. -/
def pollFailureError (result : Json) : Json :=
  match Json.getField result errorField with
  | some v => if Json.truthy v then v else Json.str genericFailedMsg
  | none => Json.str genericFailedMsg

/-- Observable network events of a poll run: one GET per attempt, and
one `setTimeout` wait of the given interval after each non-terminal
response. -/
inductive PollEvent where
  | get : String → PollEvent
  | wait : Int → PollEvent
deriving Repr

/-- Number of GET requests in a poll trace. -/
def countGets : List PollEvent → Nat
  | [] => 0
  | PollEvent.get _ :: es => countGets es + 1
  | PollEvent.wait _ :: es => countGets es

/-- Number of waits in a poll trace. -/
def countWaits : List PollEvent → Nat
  | [] => 0
  | PollEvent.get _ :: es => countWaits es
  | PollEvent.wait _ :: es => countWaits es + 1

def slashStr : String := "/"

/-- The `while (attempts < maxAttempts)` loop of `pollWorkflowStatus`.
`fuel` is the number of remaining permitted attempts
(`maxAttempts - attempts`); `k` is the index of the current attempt,
used to index the network oracle `net`.  Each iteration issues one GET;
a transport error, a non-2xx status, a malformed body, or the TypeError
from reading `result.status` off a null body exits via the catch with
that error; a terminal status exits with the corresponding envelope;
otherwise the loop waits `interval` and continues. -/
def pollLoop (net : Nat → FetchOutcome) (pollUrl : String) (interval : Int) :
    Nat → Nat → WorkflowResponse × List PollEvent
  | 0, _ => (⟨false, none, some (Json.str timeoutMsg)⟩, [])
  | fuel + 1, k =>
    match net k with
    | FetchOutcome.transportError msg =>
      (⟨false, none, some (Json.str msg)⟩, [PollEvent.get pollUrl])
    | FetchOutcome.ok status body =>
      if responseOk status then
        match body with
        | ParseResult.malformed msg =>
          (⟨false, none, some (Json.str msg)⟩, [PollEvent.get pollUrl])
        | ParseResult.parsed result =>
          if Json.isNull result then
            (⟨false, none, some (Json.str (nullReadMsg statusField))⟩,
             [PollEvent.get pollUrl])
          else if isTerminalSuccess result then
            (⟨true, some result, none⟩, [PollEvent.get pollUrl])
          else if isTerminalFailure result then
            (⟨false, none, some (pollFailureError result)⟩, [PollEvent.get pollUrl])
          else
            let rest := pollLoop net pollUrl interval fuel (k + 1)
            (rest.1, PollEvent.get pollUrl :: PollEvent.wait interval :: rest.2)
      else
        (⟨false, none, some (Json.str (httpErrorMsg status))⟩, [PollEvent.get pollUrl])

/-- `pollWorkflowStatus(jobId, statusUrl, interval, maxAttempts)`.
The GET target is `statusUrl + "/" + jobId`.  `maxAttempts` is a
JavaScript number: with `attempts` starting at 0, the loop body runs
`max maxAttempts 0` times, so a non-positive budget falls straight
through to the timeout envelope. -/
def pollWorkflowStatus (net : Nat → FetchOutcome) (jobId statusUrl : String)
    (interval : Int) (maxAttempts : Int) : WorkflowResponse × List PollEvent :=
  pollLoop net (statusUrl ++ slashStr ++ jobId) interval maxAttempts.toNat 0

/-- A fetch outcome is a 2xx response with a well-parsed body that
carries no terminal status value.  This is claim C6's hypothesis as
stated; it admits the bare null body, which the code does not poll
past (see `pollWorkflowStatus_timeout_counterexample`). -/
def isNonTerminal2xx : FetchOutcome → Bool
  | FetchOutcome.ok status (ParseResult.parsed result) =>
    responseOk status && !(isTerminalSuccess result || isTerminalFailure result)
  | _ => false

/-- A fetch outcome is a 2xx response with a well-parsed, non-null body
that carries no terminal status value: exactly the outcomes the poll
loop treats as still processing. -/
def isNonTerminalNonNull2xx : FetchOutcome → Bool
  | FetchOutcome.ok status (ParseResult.parsed result) =>
    responseOk status && !(Json.isNull result) &&
      !(isTerminalSuccess result || isTerminalFailure result)
  | _ => false

/-! Concrete fixtures used to instantiate the theorems below. -/

def exUrl : String := "https://example.com/hook"

def jobOne : String := "job1"

def stUrl : String := "https://status.example"

def statusProcessing : String := "processing"

def resultField : String := "result"

def badInputMsg : String := "bad input"

def boomMsg : String := "boom"

/-- The body `{status: "processing"}`. -/
def procBody : Json := Json.obj [(statusField, Json.str statusProcessing)]

/-- The body `{status: "completed", result: 42}`. -/
def completedBody : Json :=
  Json.obj [(statusField, Json.str statusCompleted), (resultField, Json.num 42)]

/-- A status endpoint answering `{status: "processing"}` on the first
two attempts and `{status: "completed", result: 42}` on the third. -/
def c4Net : Nat → FetchOutcome
  | 0 => FetchOutcome.ok 200 (ParseResult.parsed procBody)
  | 1 => FetchOutcome.ok 200 (ParseResult.parsed procBody)
  | _ => FetchOutcome.ok 200 (ParseResult.parsed completedBody)

/-- The body `{status: "failed", error: "bad input"}`. -/
def failedBody : Json :=
  Json.obj [(statusField, Json.str statusFailed), (errorField, Json.str badInputMsg)]

/-- A status endpoint answering `{status: "failed", error: "bad input"}`. -/
def c5Net : Nat → FetchOutcome :=
  fun _ => FetchOutcome.ok 200 (ParseResult.parsed failedBody)

/-- A status endpoint that always answers `{status: "processing"}`. -/
def processingNet : Nat → FetchOutcome :=
  fun _ => FetchOutcome.ok 200 (ParseResult.parsed procBody)

/-- A status endpoint that answers the bare JSON value `null` with
status 200 on every attempt. -/
def nullBodyNet : Nat → FetchOutcome :=
  fun _ => FetchOutcome.ok 200 (ParseResult.parsed Json.null)

/-- A 2xx body that itself carries an `error` field. -/
def errorFieldBody : Json := Json.obj [(errorField, Json.str boomMsg)]

/-- The body `{status: "failed", error: 5}`: its truthy, non-string
`error` field flows into the envelope unchanged. -/
def numericErrorBody : Json :=
  Json.obj [(statusField, Json.str statusFailed), (errorField, Json.num 5)]

/-- The sample JSON payload used by witnesses. -/
def samplePayload : Json := Json.obj [(resultField, Json.num 1)]

/-- The sample form data used by witnesses. -/
def sampleForm : FormData := [(resultField, exUrl)]

/-- A network answering status 200 with body `{result: 1}` to every request. -/
def okNet : Request → FetchOutcome :=
  fun _ => FetchOutcome.ok 200 (ParseResult.parsed samplePayload)

/-- A network answering status 500 to every request. -/
def err500Net : Request → FetchOutcome :=
  fun _ => FetchOutcome.ok 500 (ParseResult.parsed Json.null)

/-- A network answering status 200 with the `error`-field body. -/
def errorFieldNet : Request → FetchOutcome :=
  fun _ => FetchOutcome.ok 200 (ParseResult.parsed errorFieldBody)

/-- A status endpoint answering `{status: "failed", error: 5}`. -/
def numericErrorNet : Nat → FetchOutcome :=
  fun _ => FetchOutcome.ok 200 (ParseResult.parsed numericErrorBody)

/-! ## Claim theorems -/

/-- C1: with no `webhookUrl` argument and no configured default, both
`executeWorkflow` and `executeWorkflowWithFiles` return `success:false`
with the configuration error message (which states that the webhook URL
is not configured and names the environment variable to set), and the
request trace is empty: zero network requests are issued. -/
theorem executeWorkflow_noConfig_noNetwork (net : Request → FetchOutcome)
    (data : Json) (fd : FormData) :
    executeWorkflow none net data none =
      (⟨false, none, some (Json.str configErrorMsg)⟩, []) ∧
    executeWorkflowWithFiles none net fd none =
      (⟨false, none, some (Json.str configErrorMsg)⟩, []) :=
  ⟨rfl, rfl⟩

/-- C2: for every payload and resolvable endpoint, a non-2xx response
makes `executeWorkflow` return `success:false` with the error message
`"HTTP error! status: "` followed by the numeric status code, and the
request trace has exactly one element: one POST, no retry. -/
theorem executeWorkflow_non2xx (net : Request → FetchOutcome) (data : Json)
    (defaultUrl : Option String) (u : String) (status : Nat) (body : ParseResult)
    (hu : u ≠ "")
    (hnet : net (jsonRequest u data) = FetchOutcome.ok status body)
    (hst : responseOk status = false) :
    executeWorkflow defaultUrl net data (some u) =
      (⟨false, none, some (Json.str (httpErrorPre ++ toString status))⟩,
       [jsonRequest u data]) ∧
    (executeWorkflow defaultUrl net data (some u)).2.length = 1 := by
  have hres : resolveUrl (some u) defaultUrl = some u := by
    simp [resolveUrl, truthyStr, hu]
  constructor
  · simp [executeWorkflow, hres, hnet, hst, httpErrorMsg]
  · simp [executeWorkflow, hres, hnet, hst]

/-- Witness for C2 at a concrete 500 response. -/
theorem executeWorkflow_non2xx_witness :
    executeWorkflow none err500Net samplePayload (some exUrl) =
      (⟨false, none, some (Json.str (httpErrorPre ++ toString 500))⟩,
       [jsonRequest exUrl samplePayload]) ∧
    (executeWorkflow none err500Net samplePayload (some exUrl)).2.length = 1 :=
  executeWorkflow_non2xx err500Net samplePayload none exUrl 500
    (ParseResult.parsed Json.null) (by decide) rfl (by decide)

/-- C3: for every payload and resolvable endpoint, a 2xx response whose
body parses as JSON value `B` makes `executeWorkflow` (JSON payload)
and `executeWorkflowWithFiles` (FormData payload, sent unmodified with
no explicit content type) each return `success:true` with `data = B`,
in a single request. -/
theorem execute_2xx_returns_body (net : Request → FetchOutcome) (data : Json)
    (fd : FormData) (defaultUrl : Option String) (u : String)
    (sj sf : Nat) (bodyJ bodyF : Json)
    (hu : u ≠ "")
    (hj : net (jsonRequest u data) = FetchOutcome.ok sj (ParseResult.parsed bodyJ))
    (hf : net (formRequest u fd) = FetchOutcome.ok sf (ParseResult.parsed bodyF))
    (hsj : responseOk sj = true)
    (hsf : responseOk sf = true) :
    executeWorkflow defaultUrl net data (some u) =
      (⟨true, some bodyJ, none⟩, [jsonRequest u data]) ∧
    executeWorkflowWithFiles defaultUrl net fd (some u) =
      (⟨true, some bodyF, none⟩, [formRequest u fd]) ∧
    (formRequest u fd).body = RequestBody.formBody fd ∧
    (formRequest u fd).contentType = none := by
  have hres : resolveUrl (some u) defaultUrl = some u := by
    simp [resolveUrl, truthyStr, hu]
  refine ⟨?_, ?_, rfl, rfl⟩
  · simp [executeWorkflow, hres, hj, hsj]
  · simp [executeWorkflowWithFiles, hres, hf, hsf]

/-- Witness for C3 at a concrete 200 response with body `{result: 1}`. -/
theorem execute_2xx_returns_body_witness :
    executeWorkflow none okNet samplePayload (some exUrl) =
      (⟨true, some samplePayload, none⟩, [jsonRequest exUrl samplePayload]) ∧
    executeWorkflowWithFiles none okNet sampleForm (some exUrl) =
      (⟨true, some samplePayload, none⟩, [formRequest exUrl sampleForm]) ∧
    (formRequest exUrl sampleForm).body = RequestBody.formBody sampleForm ∧
    (formRequest exUrl sampleForm).contentType = none :=
  execute_2xx_returns_body okNet samplePayload sampleForm none exUrl 200 200
    samplePayload samplePayload (by decide) rfl rfl (by decide) (by decide)

/-- A network whose every attempt fails at the transport level. -/
def transportFailNet : Nat → FetchOutcome :=
  fun _ => FetchOutcome.transportError boomMsg

/-- Helper: a body carrying a terminal-success status has a `status`
field, hence is an object, hence is not null. -/
theorem isNull_eq_false_of_terminalSuccess (result : Json)
    (h : isTerminalSuccess result = true) : Json.isNull result = false := by
  cases result with
  | null => exact absurd h (by decide)
  | bool b => rfl
  | num n => rfl
  | str s => rfl
  | arr xs => rfl
  | obj fs => rfl

/-- Helper: a body carrying a terminal-failure status has a `status`
field, hence is an object, hence is not null. -/
theorem isNull_eq_false_of_terminalFailure (result : Json)
    (h : isTerminalFailure result = true) : Json.isNull result = false := by
  cases result with
  | null => exact absurd h (by decide)
  | bool b => rfl
  | num n => rfl
  | str s => rfl
  | arr xs => rfl
  | obj fs => rfl

/-- C4: any poll iteration that receives a 2xx response whose body's
`status` is `completed` or `success` ends the loop immediately with
`success:true` carrying the full body as `data`; concretely, with
`{status: "processing"}` on the first two attempts and
`{status: "completed", result: 42}` on the third,
`pollWorkflowStatus(jobId, url, 10, 30)` returns that full third body
after exactly 3 GETs and exactly 2 waits of 10 ms. -/
theorem pollWorkflowStatus_terminalSuccess :
    (∀ (net : Nat → FetchOutcome) (pollUrl : String) (interval : Int)
       (fuel k status : Nat) (result : Json),
      net k = FetchOutcome.ok status (ParseResult.parsed result) →
      responseOk status = true →
      isTerminalSuccess result = true →
      pollLoop net pollUrl interval (fuel + 1) k =
        (⟨true, some result, none⟩, [PollEvent.get pollUrl])) ∧
    pollWorkflowStatus c4Net jobOne stUrl 10 30 =
      (⟨true, some completedBody, none⟩,
       [PollEvent.get (stUrl ++ slashStr ++ jobOne), PollEvent.wait 10,
        PollEvent.get (stUrl ++ slashStr ++ jobOne), PollEvent.wait 10,
        PollEvent.get (stUrl ++ slashStr ++ jobOne)]) ∧
    countGets (pollWorkflowStatus c4Net jobOne stUrl 10 30).2 = 3 ∧
    countWaits (pollWorkflowStatus c4Net jobOne stUrl 10 30).2 = 2 := by
  refine ⟨?_, rfl, rfl, rfl⟩
  intro net pollUrl interval fuel k status result hnet hok hterm
  have hnn := isNull_eq_false_of_terminalSuccess result hterm
  simp [pollLoop, hnet, hok, hnn, hterm]

/-- Witness for the hypothesis-bearing conjunct of C4, at a network
answering `{status: "completed", result: 42}` on its first attempt. -/
theorem pollWorkflowStatus_terminalSuccess_witness :
    pollLoop (fun _ => FetchOutcome.ok 200 (ParseResult.parsed completedBody))
        stUrl 10 (4 + 1) 0 =
      (⟨true, some completedBody, none⟩, [PollEvent.get stUrl]) :=
  pollWorkflowStatus_terminalSuccess.1
    (fun _ => FetchOutcome.ok 200 (ParseResult.parsed completedBody))
    stUrl 10 4 0 200 completedBody rfl (by decide) (by decide)

/-- C5: any poll iteration that receives a 2xx response whose body's
`status` is `failed` or `error` ends the loop immediately with
`success:false`, the envelope's error being the body's `error` field
when present and truthy and the generic failure message otherwise;
concretely, `{status: "failed", error: "bad input"}` on the first
attempt yields `error = "bad input"` after exactly 1 GET. -/
theorem pollWorkflowStatus_terminalFailure :
    (∀ (net : Nat → FetchOutcome) (pollUrl : String) (interval : Int)
       (fuel k status : Nat) (result : Json),
      net k = FetchOutcome.ok status (ParseResult.parsed result) →
      responseOk status = true →
      isTerminalSuccess result = false →
      isTerminalFailure result = true →
      pollLoop net pollUrl interval (fuel + 1) k =
        (⟨false, none, some (pollFailureError result)⟩, [PollEvent.get pollUrl])) ∧
    (∀ (result v : Json), Json.getField result errorField = some v →
      Json.truthy v = true → pollFailureError result = v) ∧
    (∀ (result v : Json), Json.getField result errorField = some v →
      Json.truthy v = false → pollFailureError result = Json.str genericFailedMsg) ∧
    (∀ (result : Json), Json.getField result errorField = none →
      pollFailureError result = Json.str genericFailedMsg) ∧
    pollWorkflowStatus c5Net jobOne stUrl 10 30 =
      (⟨false, none, some (Json.str badInputMsg)⟩,
       [PollEvent.get (stUrl ++ slashStr ++ jobOne)]) ∧
    countGets (pollWorkflowStatus c5Net jobOne stUrl 10 30).2 = 1 := by
  refine ⟨?_, ?_, ?_, ?_, rfl, rfl⟩
  · intro net pollUrl interval fuel k status result hnet hok hts htf
    have hnn := isNull_eq_false_of_terminalFailure result htf
    simp [pollLoop, hnet, hok, hnn, hts, htf]
  · intro result v hv htr
    simp [pollFailureError, hv, htr]
  · intro result v hv htr
    simp [pollFailureError, hv, htr]
  · intro result hv
    simp [pollFailureError, hv]

/-- Witness for the hypothesis-bearing conjuncts of C5, at the
`{status: "failed", error: "bad input"}` network. -/
theorem pollWorkflowStatus_terminalFailure_witness :
    pollLoop c5Net stUrl 10 (4 + 1) 0 =
      (⟨false, none, some (pollFailureError failedBody)⟩, [PollEvent.get stUrl]) ∧
    pollFailureError failedBody = Json.str badInputMsg :=
  ⟨pollWorkflowStatus_terminalFailure.1 c5Net stUrl 10 4 0 200 failedBody rfl
      (by decide) (by decide) (by decide),
   pollWorkflowStatus_terminalFailure.2.1 failedBody (Json.str badInputMsg) rfl
      (by decide)⟩

/-- C6 counterexample: the always-null-body endpoint satisfies the
claim's hypothesis as stated — every response is 2xx, well parsed, and
carries no terminal status value — yet with a budget of 5 attempts the
poll exits through the catch after exactly 1 GET, carrying the
TypeError message from reading `status` off null, which is not the
timeout message, instead of timing out after 5 GETs. -/
theorem pollWorkflowStatus_timeout_counterexample :
    (∀ j, isNonTerminal2xx (nullBodyNet j) = true) ∧
    pollWorkflowStatus nullBodyNet jobOne stUrl 1 5 =
      (⟨false, none, some (Json.str (nullReadMsg statusField))⟩,
       [PollEvent.get (stUrl ++ slashStr ++ jobOne)]) ∧
    countGets (pollWorkflowStatus nullBodyNet jobOne stUrl 1 5).2 = 1 ∧
    nullReadMsg statusField ≠ timeoutMsg :=
  ⟨fun _ => rfl, rfl, rfl, by decide⟩

/-- Helper: under a network whose every outcome is a 2xx, well-parsed,
non-null, non-terminal response, the poll loop consumes all its fuel,
ends with the timeout envelope, and issues exactly one GET per unit of
fuel. -/
theorem pollLoop_allNonTerminal (net : Nat → FetchOutcome) (pollUrl : String)
    (interval : Int) (hnet : ∀ j, isNonTerminalNonNull2xx (net j) = true) :
    ∀ fuel k, (pollLoop net pollUrl interval fuel k).1 =
        ⟨false, none, some (Json.str timeoutMsg)⟩ ∧
      countGets (pollLoop net pollUrl interval fuel k).2 = fuel
  | 0, _ => ⟨rfl, rfl⟩
  | fuel + 1, k => by
    have h := hnet k
    have ih := pollLoop_allNonTerminal net pollUrl interval hnet fuel (k + 1)
    cases hnk : net k with
    | transportError msg =>
      rw [hnk] at h
      simp [isNonTerminalNonNull2xx] at h
    | ok status body =>
      cases body with
      | malformed msg =>
        rw [hnk] at h
        simp [isNonTerminalNonNull2xx] at h
      | parsed result =>
        rw [hnk] at h
        simp [isNonTerminalNonNull2xx] at h
        obtain ⟨⟨hok, hnn⟩, hts, htf⟩ := h
        simp [pollLoop, hnk, hok, hnn, hts, htf, countGets, ih.1, ih.2]

/-- C6 (amended): for `maxAttempts ≥ 1` and a status endpoint whose
responses are all 2xx with well-parsed, non-null, non-terminal bodies,
`pollWorkflowStatus` terminates with `success:false` and the timeout
message after exactly `maxAttempts` GET requests.  (A bare null body is
excluded: there the first `status` read throws, and the poll exits
through the catch after that one GET.) -/
theorem pollWorkflowStatus_timeout (net : Nat → FetchOutcome)
    (jobId statusUrl : String) (interval maxAttempts : Int)
    (hmax : 1 ≤ maxAttempts)
    (hnet : ∀ j, isNonTerminalNonNull2xx (net j) = true) :
    (pollWorkflowStatus net jobId statusUrl interval maxAttempts).1 =
      ⟨false, none, some (Json.str timeoutMsg)⟩ ∧
    (countGets (pollWorkflowStatus net jobId statusUrl interval maxAttempts).2 : Int) =
      maxAttempts := by
  have h := pollLoop_allNonTerminal net (statusUrl ++ slashStr ++ jobId) interval hnet
    maxAttempts.toNat 0
  refine ⟨h.1, ?_⟩
  rw [pollWorkflowStatus, h.2]
  exact Int.toNat_of_nonneg (by omega)

/-- Witness for C6: the always-`processing` endpoint with a budget of 5
attempts times out after exactly 5 GETs. -/
theorem pollWorkflowStatus_timeout_witness :
    (pollWorkflowStatus processingNet jobOne stUrl 1 5).1 =
      ⟨false, none, some (Json.str timeoutMsg)⟩ ∧
    (countGets (pollWorkflowStatus processingNet jobOne stUrl 1 5).2 : Int) = 5 :=
  pollWorkflowStatus_timeout processingNet jobOne stUrl 1 5 (by decide) (fun _ => rfl)

/-- C7: a poll attempt that fails at the transport level, or receives a
non-2xx response, terminates the whole poll at that attempt with
`success:false` and the corresponding error message; the trace of the
remaining run is that single GET, so the failed attempt is never
retried and no further GET is issued. -/
theorem pollWorkflowStatus_attemptFailureStops :
    (∀ (net : Nat → FetchOutcome) (pollUrl : String) (interval : Int)
       (fuel k : Nat) (msg : String),
      net k = FetchOutcome.transportError msg →
      pollLoop net pollUrl interval (fuel + 1) k =
        (⟨false, none, some (Json.str msg)⟩, [PollEvent.get pollUrl])) ∧
    (∀ (net : Nat → FetchOutcome) (pollUrl : String) (interval : Int)
       (fuel k status : Nat) (body : ParseResult),
      net k = FetchOutcome.ok status body →
      responseOk status = false →
      pollLoop net pollUrl interval (fuel + 1) k =
        (⟨false, none, some (Json.str (httpErrorPre ++ toString status))⟩,
         [PollEvent.get pollUrl])) := by
  constructor
  · intro net pollUrl interval fuel k msg hnet
    simp [pollLoop, hnet]
  · intro net pollUrl interval fuel k status body hnet hst
    simp [pollLoop, hnet, hst, httpErrorMsg]

/-- Witness for C7: a first-attempt transport failure ends the poll with
that error and a single GET. -/
theorem pollWorkflowStatus_attemptFailureStops_witness :
    pollLoop transportFailNet stUrl 10 (4 + 1) 0 =
      (⟨false, none, some (Json.str boomMsg)⟩, [PollEvent.get stUrl]) :=
  pollWorkflowStatus_attemptFailureStops.1 transportFailNet stUrl 10 4 0 boomMsg rfl

/-- C8 counterexample: at a concrete 2xx response whose JSON body is
`{error: "boom"}`, `executeWorkflow` returns `success:true` with the
body passed through as `data` — not the `success:false` normalization
the claim asserts, refuting the claim at this input. -/
theorem executeWorkflow_errorField_counterexample :
    Json.getField errorFieldBody errorField = some (Json.str boomMsg) ∧
    executeWorkflow none errorFieldNet samplePayload (some exUrl) =
      (⟨true, some errorFieldBody, none⟩, [jsonRequest exUrl samplePayload]) ∧
    (executeWorkflow none errorFieldNet samplePayload (some exUrl)).1.success = true :=
  ⟨rfl, rfl, rfl⟩

/-- C8 (amended): `executeWorkflow` never inspects the parsed body of a
2xx response: even when that body contains an `error` field, it returns
`success:true` with the full body as `data`.  Workflow-reported errors
are recognized only by `pollWorkflowStatus`, and only via the body's
`status` field (the `error` field merely supplies the message). -/
theorem executeWorkflow_errorField_passthrough (net : Request → FetchOutcome)
    (data : Json) (defaultUrl : Option String) (u : String) (status : Nat)
    (bodyB e : Json)
    (hu : u ≠ "")
    (hnet : net (jsonRequest u data) = FetchOutcome.ok status (ParseResult.parsed bodyB))
    (hok : responseOk status = true)
    (herr : Json.getField bodyB errorField = some e) :
    executeWorkflow defaultUrl net data (some u) =
      (⟨true, some bodyB, none⟩, [jsonRequest u data]) := by
  have hres : resolveUrl (some u) defaultUrl = some u := by
    simp [resolveUrl, truthyStr, hu]
  simp [executeWorkflow, hres, hnet, hok]

/-- Witness for the amended C8 at the `{error: "boom"}` body. -/
theorem executeWorkflow_errorField_passthrough_witness :
    executeWorkflow none errorFieldNet samplePayload (some exUrl) =
      (⟨true, some errorFieldBody, none⟩, [jsonRequest exUrl samplePayload]) :=
  executeWorkflow_errorField_passthrough errorFieldNet samplePayload none exUrl 200
    errorFieldBody (Json.str boomMsg) (by decide) rfl (by decide) rfl

/-- The envelope invariant exactly as claim C9 states it: on success,
`data` present and `error` absent; on failure, `data` absent and
`error` a non-empty string. -/
def claimedEnvelopeInvariant (r : WorkflowResponse) : Bool :=
  if r.success then r.data.isSome && r.error.isNone
  else
    r.data.isNone &&
      (match r.error with
       | some (Json.str s) => s != ""
       | _ => false)

/-- The envelope invariant the code actually maintains: exactly one of
`data` and `error` is populated, as directed by `success`. -/
def envelopeShape (r : WorkflowResponse) : Bool :=
  if r.success then r.data.isSome && r.error.isNone
  else r.data.isNone && r.error.isSome

/-- C9 counterexample: polling a status endpoint that answers
`{status: "failed", error: 5}` yields the envelope
`success:false, error:5` — the truthy, non-string `error` field flows
through `result.error || ...` into the envelope unchanged, so the
failed envelope's `error` is not a non-empty string as claimed. -/
theorem envelope_invariant_counterexample :
    (pollWorkflowStatus numericErrorNet jobOne stUrl 10 30).1 =
      ⟨false, none, some (Json.num 5)⟩ ∧
    claimedEnvelopeInvariant
      (pollWorkflowStatus numericErrorNet jobOne stUrl 10 30).1 = false :=
  ⟨rfl, rfl⟩

/-- Helper: every envelope `executeWorkflow` can produce has the
exactly-one-of-`data`/`error` shape. -/
theorem envelopeShape_executeWorkflow (defaultUrl : Option String)
    (net : Request → FetchOutcome) (data : Json) (webhookUrl : Option String) :
    envelopeShape (executeWorkflow defaultUrl net data webhookUrl).1 = true := by
  cases hres : resolveUrl webhookUrl defaultUrl with
  | none => simp [executeWorkflow, hres, envelopeShape]
  | some url =>
    cases hout : net (jsonRequest url data) with
    | transportError msg => simp [executeWorkflow, hres, hout, envelopeShape]
    | ok status body =>
      cases hok : responseOk status with
      | false => simp [executeWorkflow, hres, hout, hok, envelopeShape]
      | true =>
        cases body with
        | parsed result => simp [executeWorkflow, hres, hout, hok, envelopeShape]
        | malformed msg => simp [executeWorkflow, hres, hout, hok, envelopeShape]

/-- Helper: every envelope `executeWorkflowWithFiles` can produce has
the exactly-one-of-`data`/`error` shape. -/
theorem envelopeShape_executeWorkflowWithFiles (defaultUrl : Option String)
    (net : Request → FetchOutcome) (fd : FormData) (webhookUrl : Option String) :
    envelopeShape (executeWorkflowWithFiles defaultUrl net fd webhookUrl).1 = true := by
  cases hres : resolveUrl webhookUrl defaultUrl with
  | none => simp [executeWorkflowWithFiles, hres, envelopeShape]
  | some url =>
    cases hout : net (formRequest url fd) with
    | transportError msg => simp [executeWorkflowWithFiles, hres, hout, envelopeShape]
    | ok status body =>
      cases hok : responseOk status with
      | false => simp [executeWorkflowWithFiles, hres, hout, hok, envelopeShape]
      | true =>
        cases body with
        | parsed result => simp [executeWorkflowWithFiles, hres, hout, hok, envelopeShape]
        | malformed msg => simp [executeWorkflowWithFiles, hres, hout, hok, envelopeShape]

/-- Helper: every envelope the poll loop can produce has the
exactly-one-of-`data`/`error` shape. -/
theorem envelopeShape_pollLoop (net : Nat → FetchOutcome) (pollUrl : String)
    (interval : Int) :
    ∀ fuel k, envelopeShape (pollLoop net pollUrl interval fuel k).1 = true
  | 0, _ => rfl
  | fuel + 1, k => by
    have ih := envelopeShape_pollLoop net pollUrl interval fuel (k + 1)
    cases hout : net k with
    | transportError msg => simp [pollLoop, hout, envelopeShape]
    | ok status body =>
      cases hok : responseOk status with
      | false => simp [pollLoop, hout, hok, envelopeShape]
      | true =>
        cases body with
        | malformed msg => simp [pollLoop, hout, hok, envelopeShape]
        | parsed result =>
          cases hnull : Json.isNull result with
          | true => simp [pollLoop, hout, hok, hnull, envelopeShape]
          | false =>
            cases hts : isTerminalSuccess result with
            | true => simp [pollLoop, hout, hok, hnull, hts, envelopeShape]
            | false =>
              cases htf : isTerminalFailure result with
              | true => simp [pollLoop, hout, hok, hnull, hts, htf, envelopeShape]
              | false => simpa [pollLoop, hout, hok, hnull, hts, htf] using ih

/-- C9 (amended): every envelope returned by `executeWorkflow`,
`executeWorkflowWithFiles`, or `pollWorkflowStatus`, for every input and
response sequence, populates exactly one of `data` and `error` as
directed by `success`; the `error` value, however, need not be a
non-empty string (the poller passes a truthy non-string `error` body
field through, and a caught error's message may be empty).  The three
operations are total functions of their network oracle: every failure
is returned in the envelope, never thrown. -/
theorem envelope_shape_invariant (defaultUrl : Option String)
    (net : Request → FetchOutcome) (pnet : Nat → FetchOutcome)
    (data : Json) (fd : FormData) (webhookUrl : Option String)
    (jobId statusUrl : String) (interval maxAttempts : Int) :
    envelopeShape (executeWorkflow defaultUrl net data webhookUrl).1 = true ∧
    envelopeShape (executeWorkflowWithFiles defaultUrl net fd webhookUrl).1 = true ∧
    envelopeShape (pollWorkflowStatus pnet jobId statusUrl interval maxAttempts).1 = true :=
  ⟨envelopeShape_executeWorkflow defaultUrl net data webhookUrl,
   envelopeShape_executeWorkflowWithFiles defaultUrl net fd webhookUrl,
   envelopeShape_pollLoop pnet (statusUrl ++ slashStr ++ jobId) interval
     maxAttempts.toNat 0⟩

/-- C10: a non-positive `maxAttempts` budget makes `pollWorkflowStatus`
return the timeout envelope immediately, with an empty event trace:
zero GET requests and zero interval waits. -/
theorem pollWorkflowStatus_nonpositiveBudget (net : Nat → FetchOutcome)
    (jobId statusUrl : String) (interval maxAttempts : Int)
    (h : maxAttempts ≤ 0) :
    pollWorkflowStatus net jobId statusUrl interval maxAttempts =
      (⟨false, none, some (Json.str timeoutMsg)⟩, []) := by
  unfold pollWorkflowStatus
  rw [Int.toNat_of_nonpos h]
  rfl

/-- Witness for C10 at `maxAttempts = -3`. -/
theorem pollWorkflowStatus_nonpositiveBudget_witness :
    pollWorkflowStatus processingNet jobOne stUrl 10 (-3) =
      (⟨false, none, some (Json.str timeoutMsg)⟩, []) :=
  pollWorkflowStatus_nonpositiveBudget processingNet jobOne stUrl 10 (-3) (by decide)

end N8nService
